import Mathlib

/-!
Shallow embedding of `scripts/tmuxjump.py` (karabingen repository).

The embedding is a direct translation of the Python source:
* the jumplist parser `parse_tmuxjumplist_file` (lines 44-102),
* the key/directory resolver `get_session_and_dir` (lines 105-133),
* the session ensurer `ensure_tmux_session` (lines 136-143),
* the attach cascade in `main` (lines 236-255) and the window-count
  probe `count_alacritty_windows` (lines 161-182).

Python `str` values are Lean `String`s; Python dicts are association
lists with dict-assignment (overwrite-or-append) semantics; the home
directory and the filesystem `isdir` test are explicit parameters.
-/

namespace Tmuxjump

/-- Model of `os.path.expanduser`: a path that is exactly `~` becomes the
home directory, a path beginning with `~/` has the tilde replaced by the
home directory, and every other path (including `~user` forms, which the
jumplist claims never exercise) is returned unchanged. -/
def expanduser (home : String) (p : String) : String :=
  match p.data with
  | ['~'] => home
  | '~' :: '/' :: rest => home ++ String.mk ('/' :: rest)
  | _ => p

/-- Python dict assignment `d[k] = v` on an association list: overwrite the
existing binding in place if `k` is present, otherwise append a new one. -/
def dictInsert (k v : String) (d : List (String × String)) :
    List (String × String) :=
  if (d.lookup k).isSome then
    d.map (fun p => if p.1 = k then (k, v) else p)
  else
    d ++ [(k, v)]

/-- Result of `parse_tmuxjumplist_file`: session names in file order,
`dirs` (session name to directory) and `num_map` (key to session name). -/
structure JumplistIndex where
  sessions : List String
  dirs : List (String × String)
  num_map : List (String × String)
  deriving Repr, DecidableEq

/-- The empty parse state. -/
def JumplistIndex.empty : JumplistIndex := ⟨[], [], []⟩

/-- ASCII whitespace stripped by Python `str.strip()` (the non-ASCII
Unicode whitespace Python also strips never occurs in the claims). -/
def isPySpace (c : Char) : Bool :=
  c = ' ' || c = '\t' || c = '\n' || c = '\r' || c = '\x0b' || c = '\x0c'

/-- Strip leading and trailing whitespace from a character list. -/
def stripList (l : List Char) : List Char :=
  ((l.dropWhile isPySpace).reverse.dropWhile isPySpace).reverse

/-- Python `s.strip()`. -/
def pyStrip (s : String) : String := String.mk (stripList s.data)

/-- Split a character list at its first colon; `none` when it has none. -/
def splitColonAux : List Char → Option (List Char × List Char)
  | [] => none
  | c :: t =>
      if c = ':' then some ([], t)
      else
        match splitColonAux t with
        | none => none
        | some (a, b) => some (c :: a, b)

/-- Split a string at its first colon, as Python `s.split(":", 1)` does
when a colon is present; `none` when the string has no colon. -/
def splitFirstColon (s : String) : Option (String × String) :=
  match splitColonAux s.data with
  | none => none
  | some (a, b) => some (String.mk a, String.mk b)

/-- Match of the regex `^([0-9a-zA-Z]+):(.+)$`: the text before the first
colon must be a nonempty ASCII-alphanumeric key and the remainder after
that colon must be nonempty. -/
def keyMatch (line : String) : Option (String × String) :=
  match splitFirstColon line with
  | none => none
  | some (before, after) =>
      if !before.data.isEmpty && before.data.all Char.isAlphanum
          && !after.data.isEmpty then
        some (before, after)
      else
        none

/-- One iteration of the parser loop of `parse_tmuxjumplist_file`
(lines 59-100 of `tmuxjump.py`) on an already-read line. -/
def parseLine (home : String) (st : JumplistIndex) (rawLine : String) :
    JumplistIndex :=
  let line := pyStrip rawLine
  if line.data.isEmpty || line.data.head? == some '#' then st
  else
    match keyMatch line with
    | some (keyname, rest) =>
        if (st.num_map.lookup keyname).isSome then st
        else
          match splitFirstColon rest with
          | some (sname, srawdir) =>
              let sdir := expanduser home srawdir
              { sessions := st.sessions ++ [sname]
                dirs := dictInsert sname sdir st.dirs
                num_map := dictInsert keyname sname st.num_map }
          | none =>
              { st with
                sessions := st.sessions ++ [rest]
                num_map := dictInsert keyname rest st.num_map }
    | none =>
        match splitFirstColon line with
        | some (sname, srawdir) =>
            let sdir := expanduser home srawdir
            { st with
              sessions := st.sessions ++ [sname]
              dirs := dictInsert sname sdir st.dirs }
        | none =>
            { st with sessions := st.sessions ++ [line] }

/-- `parse_tmuxjumplist_file` on the lines of an existing file. -/
def parseFile (home : String) (lines : List String) : JumplistIndex :=
  lines.foldl (parseLine home) JumplistIndex.empty

/-- Decimal value of a digit list (most significant first). -/
def digitsVal (ds : List Char) : Nat :=
  ds.foldl (fun n c => 10 * n + (c.toNat - 48)) 0

/-- Model of Python `int(s)` on a string: strip surrounding whitespace,
allow one optional sign, then require a nonempty run of decimal digits
(digit-grouping underscores are not modelled; no claim exercises them).
`none` models the `ValueError` raised on anything else. -/
def parsePyInt (s : String) : Option Int :=
  let t := pyStrip s
  match t.data with
  | [] => none
  | '-' :: ds =>
      if ds ≠ [] && ds.all Char.isDigit then
        some (-(Int.ofNat (digitsVal ds)))
      else none
  | '+' :: ds =>
      if ds ≠ [] && ds.all Char.isDigit then
        some (Int.ofNat (digitsVal ds))
      else none
  | ds =>
      if ds.all Char.isDigit then
        some (Int.ofNat (digitsVal ds))
      else none

/-- Python list subscription `l[i]` for `-len l ≤ i < len l`: a
non-negative index counts from the front, a negative one from the back. -/
def pyIndex (l : List String) (i : Int) : String :=
  if 0 ≤ i then l.getD i.toNat ""
  else l.getD (l.length + i).toNat ""

/-- The two `error_exit` outcomes of `get_session_and_dir`, both exit 65:
`outOfRange` from the explicit bound check, `invalidIndex` from the
`except (ValueError, IndexError)` handler. -/
inductive ResolveError where
  | outOfRange (idx : Int) (len : Nat)
  | invalidIndex (input : String)
  deriving Repr, DecidableEq

/-- Exit code of a resolution error (`error_exit(..., 65)` in both arms). -/
def ResolveError.exitCode : ResolveError → Nat := fun _ => 65

/-- Session-resolution half of `get_session_and_dir` (lines 107-120):
key-map lookup first, otherwise `int(index)` and Python list indexing,
with `idx >= len(sessions)` reported out of range and `ValueError` or
`IndexError` reported as an invalid index. -/
def getSession (index : String) (sessions : List String)
    (num_map : List (String × String)) : Except ResolveError String :=
  match num_map.lookup index with
  | some session => .ok session
  | none =>
      match parsePyInt index with
      | none => .error (.invalidIndex index)
      | some idx =>
          if sessions.length ≤ idx then
            .error (.outOfRange idx sessions.length)
          else if idx < -(sessions.length : Int) then
            .error (.invalidIndex index)
          else
            .ok (pyIndex sessions idx)

/-- Directory-resolution half of `get_session_and_dir` (lines 122-133):
configured directory first, else `~/<session>` when it is a directory,
else the home directory. `isdir` is the filesystem oracle standing for
`os.path.isdir`. -/
def resolveDir (home : String) (isdir : String → Bool)
    (dirs : List (String × String)) (session : String) : String :=
  match dirs.lookup session with
  | some directory => directory
  | none =>
      if isdir (expanduser home ("~/" ++ session)) then
        expanduser home ("~/" ++ session)
      else
        expanduser home "~"

/-- `get_session_and_dir`: resolve the key input to a session name and
pair it with its resolved directory. -/
def getSessionAndDir (home : String) (isdir : String → Bool)
    (index : String) (idx : JumplistIndex) :
    Except ResolveError (String × String) :=
  match getSession index idx.sessions idx.num_map with
  | .error e => .error e
  | .ok session => .ok (session, resolveDir home isdir idx.dirs session)

/-- The multiplexer's session registry, per the black-box command
contract: each live session has a name and the start directory it was
created with. Association-list lookup stands for `has-session -t name`. -/
abbrev TmuxRegistry := List (String × String)

/-- Does `"$TMUX_BIN" has-session -t session` succeed? -/
def hasSession (reg : TmuxRegistry) (session : String) : Bool :=
  (reg.lookup session).isSome

/-- `ensure_tmux_session` (lines 136-143): probe with `has-session`; only
when that fails, issue one detached `new-session -d -s session -c dir`
call. Returns the registry after the call together with the number of
creation calls issued (0 or 1). -/
def ensureTmuxSession (reg : TmuxRegistry) (session directory : String) :
    TmuxRegistry × Nat :=
  if hasSession reg session then (reg, 0)
  else (reg ++ [(session, directory)], 1)

/-- Observable actions of the attach cascade at the end of `main`
(lines 236-255): querying the client list, switching a client and
focusing the terminal, probing the terminal window count, typing the
attach keystrokes, spawning a new terminal window, and exiting. -/
inductive Action where
  | queryClients
  | switchClient (client session : String)
  | focusTerminal
  | probeWindowCount
  | typeAttach (session : String)
  | spawnWindow (session : String)
  | exitCode (code : Nat)
  deriving Repr, DecidableEq

/-- `count_alacritty_windows` (lines 161-182): the AppleScript probe's
stripped standard output is fed to `int(...)`; a `ValueError` (empty or
non-numeric output, as produced when the query errors or the terminal
application is not running) is downgraded to 0. -/
def countAlacrittyWindows (probeOutput : String) : Int :=
  (parsePyInt probeOutput).getD 0

/-- The attach cascade of `main` (lines 236-255) as the trace of actions
it performs, given the `list-clients` answer (empty string when no client
is attached) and the window-count probe's output. Tier 1 switches the
most recent client and exits 0; tier 2 types the attach command and
exits 0; tier 3 spawns a new window via `execvp` (process replacement,
so no exit action follows it). -/
def attachCascade (mostRecentClient : String) (probeOutput : String)
    (session : String) : List Action :=
  Action.queryClients ::
    (if mostRecentClient ≠ "" then
      [Action.switchClient mostRecentClient session,
       Action.focusTerminal, Action.exitCode 0]
    else
      Action.probeWindowCount ::
        (if 0 < countAlacrittyWindows probeOutput then
          [Action.typeAttach session, Action.exitCode 0]
        else
          [Action.spawnWindow session]))

/-- Is the stripped line skipped as blank or as a comment
(lines 63-65 of `tmuxjump.py`)? -/
def blankOrComment (rawLine : String) : Bool :=
  (pyStrip rawLine).data.isEmpty || (pyStrip rawLine).data.head? == some '#'

/-- The parser's duplicate-key guard (line 74 of `tmuxjump.py`): does the
stripped line carry a key the state has already bound? -/
def dupKeyLine (st : JumplistIndex) (rawLine : String) : Bool :=
  match keyMatch (pyStrip rawLine) with
  | some (k, _) => (st.num_map.lookup k).isSome
  | none => false

/-- Is a path absolute in the POSIX sense (leading slash)? -/
def isAbsolute (p : String) : Bool := p.data.head? == some '/'

/-- The jumplist of the spec's end-to-end example. -/
def exampleLines : List String :=
  ["a:alpha:~/proj/alpha", "dev", "5:staging:/srv/staging"]

/-! ### Association-list (Python dict) lemmas -/

theorem lookup_cons_eq (a b : String) (l : List (String × String)) :
    ((a, b) :: l).lookup a = some b := by
  simp [List.lookup]

theorem lookup_cons_ne (a b k : String) (l : List (String × String))
    (h : k ≠ a) : ((a, b) :: l).lookup k = l.lookup k := by
  simp [List.lookup, beq_eq_false_iff_ne.mpr h]

theorem lookup_map_overwrite_eq (k v : String) (d : List (String × String)) :
    (d.map fun p => if p.1 = k then (k, v) else p).lookup k
      = if (d.lookup k).isSome then some v else none := by
  induction d with
  | nil => simp [List.lookup]
  | cons p t ih =>
    obtain ⟨a, b⟩ := p
    by_cases ha : a = k
    · subst ha
      simp [lookup_cons_eq]
    · simp only [List.map_cons, if_neg ha]
      rw [lookup_cons_ne a b k _ (Ne.symm ha), lookup_cons_ne a b k t (Ne.symm ha), ih]

theorem lookup_map_overwrite_ne (k v k' : String) (d : List (String × String))
    (h : k' ≠ k) :
    (d.map fun p => if p.1 = k then (k, v) else p).lookup k' = d.lookup k' := by
  induction d with
  | nil => simp
  | cons p t ih =>
    obtain ⟨a, b⟩ := p
    by_cases ha : a = k
    · subst ha
      simp only [List.map_cons]
      simp only [if_true]
      rw [lookup_cons_ne _ _ _ _ h, lookup_cons_ne _ _ _ _ h, ih]
    · simp only [List.map_cons, if_neg ha]
      by_cases hk : k' = a
      · subst hk; rw [lookup_cons_eq, lookup_cons_eq]
      · rw [lookup_cons_ne _ _ _ _ hk, lookup_cons_ne _ _ _ _ hk, ih]

theorem lookup_append_some (k' w : String) (d l : List (String × String))
    (h : d.lookup k' = some w) : (d ++ l).lookup k' = some w := by
  induction d with
  | nil => simp [List.lookup] at h
  | cons p t ih =>
    obtain ⟨a, b⟩ := p
    by_cases hk : k' = a
    · subst hk
      rw [lookup_cons_eq] at h
      simpa [lookup_cons_eq] using h
    · rw [lookup_cons_ne _ _ _ _ hk] at h
      rw [List.cons_append, lookup_cons_ne _ _ _ _ hk]
      exact ih h

theorem lookup_append_none (k' : String) (d l : List (String × String))
    (h : d.lookup k' = none) : (d ++ l).lookup k' = l.lookup k' := by
  induction d with
  | nil => simp
  | cons p t ih =>
    obtain ⟨a, b⟩ := p
    by_cases hk : k' = a
    · subst hk; rw [lookup_cons_eq] at h; exact absurd h (by simp)
    · rw [lookup_cons_ne _ _ _ _ hk] at h
      rw [List.cons_append, lookup_cons_ne _ _ _ _ hk]
      exact ih h

theorem lookup_dictInsert_self (k v : String) (d : List (String × String)) :
    (dictInsert k v d).lookup k = some v := by
  unfold dictInsert
  by_cases h : (d.lookup k).isSome
  · rw [if_pos h, lookup_map_overwrite_eq, if_pos h]
  · rw [if_neg h, lookup_append_none k d _ (by
      cases hd : d.lookup k with
      | none => rfl
      | some w => exact absurd (by rw [hd]; rfl) h)]
    exact lookup_cons_eq k v []

theorem lookup_dictInsert_ne (k v k' : String) (d : List (String × String))
    (h : k' ≠ k) : (dictInsert k v d).lookup k' = d.lookup k' := by
  unfold dictInsert
  by_cases hs : (d.lookup k).isSome
  · rw [if_pos hs]; exact lookup_map_overwrite_ne k v k' d h
  · rw [if_neg hs]
    cases hd : d.lookup k' with
    | some w => exact lookup_append_some k' w d _ hd
    | none =>
      rw [lookup_append_none k' d _ hd, lookup_cons_ne _ _ _ _ h]
      rfl

theorem lookup_dictInsert_cases (k v k' w : String) (d : List (String × String))
    (h : (dictInsert k v d).lookup k' = some w) :
    (k' = k ∧ w = v) ∨ d.lookup k' = some w := by
  by_cases hk : k' = k
  · subst hk
    rw [lookup_dictInsert_self] at h
    exact Or.inl ⟨rfl, (Option.some.inj h).symm⟩
  · rw [lookup_dictInsert_ne _ _ _ _ hk] at h
    exact Or.inr h

/-! ### Claim theorems -/

/-- C1: the claim expects resolution of `"-1"` to fail out of range, but
`get_session_and_dir` parses `"-1"` as the integer `-1`, the guard only
rejects `idx >= len(sessions)`, and Python list indexing wraps negative
indices, so on the one-entry jumplist `["dev"]` the input `"-1"` resolves
to the last session `dev` instead of failing. -/
theorem negative_index_returns_last_session :
    parsePyInt "-1" = some (-1)
    ∧ getSession "-1" ["dev"] [] = Except.ok "dev"
    ∧ ∀ e, getSession "-1" ["dev"] [] ≠ Except.error e := by
  refine ⟨rfl, rfl, ?_⟩
  intro e h
  rw [show getSession "-1" ["dev"] [] = Except.ok "dev" from rfl] at h
  exact Except.noConfusion h

/-- C2 counterexample: on the example jumplist, resolving `"0"` yields
session `alpha` (keyed lines also occupy positional slots in file order),
not session `dev` as the claim states. -/
theorem example_zero_resolves_alpha_not_dev :
    getSessionAndDir "/home/u" (fun _ => false) "0"
        (parseFile "/home/u" exampleLines)
      = Except.ok ("alpha", "/home/u/proj/alpha")
    ∧ ("alpha" : String) ≠ "dev" :=
  ⟨rfl, by decide⟩

/-- C2 amended: on the example jumplist, `"a"` resolves to session
`alpha` with the tilde-expanded directory, `"0"` resolves to session
`alpha` (index 0 in file order, since keyed entries are also registered
positionally), `"5"` resolves to session `staging` with directory
`/srv/staging`, and `"9"` fails out of range (3 sessions). -/
theorem example_end_to_end (home : String) (isdir : String → Bool) :
    getSessionAndDir home isdir "a" (parseFile home exampleLines)
      = Except.ok ("alpha", home ++ "/proj/alpha")
    ∧ getSessionAndDir home isdir "0" (parseFile home exampleLines)
      = Except.ok ("alpha", home ++ "/proj/alpha")
    ∧ getSessionAndDir home isdir "5" (parseFile home exampleLines)
      = Except.ok ("staging", "/srv/staging")
    ∧ getSessionAndDir home isdir "9" (parseFile home exampleLines)
      = Except.error (.outOfRange 9 3) :=
  ⟨rfl, rfl, rfl, rfl⟩

/-- C5: a key input present in `num_map` resolves to its mapped session,
for every session list — so numeric parsing and positional indexing are
never consulted, even for numeric-looking keys. -/
theorem symbolic_key_precedence (key : String) (sessions : List String)
    (num_map : List (String × String)) (s : String)
    (h : num_map.lookup key = some s) :
    getSession key sessions num_map = Except.ok s := by
  unfold getSession
  rw [h]

/-- C5 witness: key `"1"` mapped to `work` resolves to `work`, although
the session at positional index 1 is `other`. -/
theorem symbolic_key_precedence_witness :
    getSession "1" ["zero", "other"] [("1", "work")] = Except.ok "work"
    ∧ ["zero", "other"].getD 1 "" = "other" :=
  ⟨symbolic_key_precedence "1" ["zero", "other"] [("1", "work")] "work" rfl,
   rfl⟩

/-- C6: the directory resolver tries exactly three tiers in order: the
configured directory when present (whatever `isdir` says about
`~/<name>`), else `~/<name>` when it is a directory, else the home
directory (the total fallback). -/
theorem directory_fallback_tiers (home : String) (isdir : String → Bool)
    (dirs : List (String × String)) (name : String) :
    (∀ d, dirs.lookup name = some d → resolveDir home isdir dirs name = d)
    ∧ (dirs.lookup name = none →
        isdir (expanduser home ("~/" ++ name)) = true →
        resolveDir home isdir dirs name = expanduser home ("~/" ++ name))
    ∧ (dirs.lookup name = none →
        isdir (expanduser home ("~/" ++ name)) = false →
        resolveDir home isdir dirs name = home) := by
  refine ⟨?_, ?_, ?_⟩
  · intro d h
    unfold resolveDir
    rw [h]
  · intro h hd
    unfold resolveDir
    rw [h]
    simp [hd]
  · intro h hd
    unfold resolveDir
    rw [h]
    simp [hd]
    rfl

/-- C6 witness: with `proj` configured to `/cfg` the first tier wins even
though `~/proj` exists; an unconfigured name with an existing home
subdirectory uses it; otherwise the home directory is used. -/
theorem directory_fallback_tiers_witness :
    resolveDir "/home/u" (fun _ => true) [("proj", "/cfg")] "proj" = "/cfg"
    ∧ resolveDir "/home/u" (fun _ => true) [] "proj" = "/home/u/proj"
    ∧ resolveDir "/home/u" (fun _ => false) [] "proj" = "/home/u" := by
  refine ⟨(directory_fallback_tiers "/home/u" (fun _ => true)
      [("proj", "/cfg")] "proj").1 "/cfg" rfl, ?_, ?_⟩
  · have h := (directory_fallback_tiers "/home/u" (fun _ => true)
      [] "proj").2.1 rfl rfl
    simpa using h
  · exact (directory_fallback_tiers "/home/u" (fun _ => false)
      [] "proj").2.2 rfl rfl

/-- C7: `ensure_tmux_session` is idempotent: an existing session triggers
no creation call and is left untouched (its directory in the registry is
not altered), and for an absent session the first call issues exactly one
creation call while an immediately repeated call issues none and leaves
the registry unchanged. -/
theorem ensure_session_idempotent (reg : TmuxRegistry)
    (session directory : String) :
    (hasSession reg session = true →
      ensureTmuxSession reg session directory = (reg, 0))
    ∧ (hasSession reg session = false →
        (ensureTmuxSession reg session directory).2 = 1
        ∧ ensureTmuxSession (ensureTmuxSession reg session directory).1
            session directory
          = ((ensureTmuxSession reg session directory).1, 0)) := by
  constructor
  · intro h
    unfold ensureTmuxSession
    rw [h]
    rfl
  · intro h
    unfold ensureTmuxSession
    rw [h]
    have hnone : reg.lookup session = none := by
      unfold hasSession at h
      cases hl : reg.lookup session with
      | none => rfl
      | some w => rw [hl] at h; simp at h
    have hhas : hasSession (reg ++ [(session, directory)]) session = true := by
      unfold hasSession
      rw [lookup_append_none _ _ _ hnone, lookup_cons_eq]
      rfl
    refine ⟨by simp, ?_⟩
    simp [ensureTmuxSession, hhas]

/-- C7 witness: an existing session (even probed with a different
directory) is a no-op, and a fresh session is created exactly once with
the second call a no-op. -/
theorem ensure_session_idempotent_witness :
    ensureTmuxSession [("w", "/d")] "w" "/e" = ([("w", "/d")], 0)
    ∧ ((ensureTmuxSession [] "s" "/d").2 = 1
        ∧ ensureTmuxSession (ensureTmuxSession [] "s" "/d").1 "s" "/d"
          = ((ensureTmuxSession [] "s" "/d").1, 0)) :=
  ⟨(ensure_session_idempotent [("w", "/d")] "w" "/e").1 rfl,
   (ensure_session_idempotent [] "s" "/d").2 rfl⟩

/-- C8: when the multiplexer reports an attached client, the cascade
switches that client, focuses the terminal and exits 0; the window-count
probe, the keystroke-typing action and the spawn action never occur in
the trace. -/
theorem attach_cascade_short_circuit (client probeOutput session : String)
    (h : client ≠ "") :
    attachCascade client probeOutput session
      = [Action.queryClients, Action.switchClient client session,
         Action.focusTerminal, Action.exitCode 0]
    ∧ Action.probeWindowCount ∉ attachCascade client probeOutput session
    ∧ (∀ s, Action.typeAttach s ∉ attachCascade client probeOutput session)
    ∧ (∀ s, Action.spawnWindow s ∉ attachCascade client probeOutput session)
    ∧ Action.exitCode 0 ∈ attachCascade client probeOutput session := by
  have htr : attachCascade client probeOutput session
      = [Action.queryClients, Action.switchClient client session,
         Action.focusTerminal, Action.exitCode 0] := by
    unfold attachCascade
    rw [if_pos h]
  refine ⟨htr, ?_, ?_, ?_, ?_⟩ <;> rw [htr] <;> simp

/-- C8 witness: with client `/dev/ttys001` attached, the trace is the
switch tier alone. -/
theorem attach_cascade_short_circuit_witness :
    ("/dev/ttys001" : String) ≠ ""
    ∧ attachCascade "/dev/ttys001" "" "work"
      = [Action.queryClients, Action.switchClient "/dev/ttys001" "work",
         Action.focusTerminal, Action.exitCode 0] :=
  ⟨by decide,
   (attach_cascade_short_circuit "/dev/ttys001" "" "work" (by decide)).1⟩

/-- C9: a window-count probe whose output does not parse as an integer
(query error, empty output, terminal application absent) is downgraded to
0 windows, and with no attached client the cascade always reaches a
terminal action: it types the attach keystrokes or spawns a window. -/
theorem probe_failure_downgraded (probeOutput session client : String) :
    (parsePyInt probeOutput = none →
      countAlacrittyWindows probeOutput = 0)
    ∧ (client = "" →
        Action.typeAttach session ∈ attachCascade client probeOutput session
        ∨ Action.spawnWindow session ∈ attachCascade client probeOutput session) := by
  constructor
  · intro h
    unfold countAlacrittyWindows
    rw [h]
    rfl
  · intro h
    subst h
    unfold attachCascade
    rw [if_neg (by simp)]
    by_cases hc : 0 < countAlacrittyWindows probeOutput
    · left
      simp [hc]
    · right
      simp [hc]

/-- C9 witness: the erroring probe output `execution error` is downgraded
to 0 windows and, with no client, the cascade spawns a window. -/
theorem probe_failure_downgraded_witness :
    countAlacrittyWindows "execution error" = 0
    ∧ (Action.typeAttach "work" ∈ attachCascade "" "execution error" "work"
        ∨ Action.spawnWindow "work" ∈ attachCascade "" "execution error" "work") :=
  ⟨(probe_failure_downgraded "execution error" "work" "").1 rfl,
   (probe_failure_downgraded "execution error" "work" "").2 rfl⟩


theorem parseLine_dup (home : String) (st : JumplistIndex) (line k rest : String)
    (hmatch : keyMatch (pyStrip line) = some (k, rest))
    (hdup : ((st.num_map.lookup k).isSome : Bool) = true) :
    parseLine home st line = st := by
  unfold parseLine
  by_cases hb : ((pyStrip line).data.isEmpty || (pyStrip line).data.head? == some '#') = true
  · rw [if_pos hb]
  · rw [if_neg hb, hmatch]
    dsimp only
    rw [if_pos hdup]

theorem parseLine_preserves_num_map (home : String) (st : JumplistIndex)
    (line k v : String) (h : st.num_map.lookup k = some v) :
    (parseLine home st line).num_map.lookup k = some v := by
  unfold parseLine
  dsimp only
  split
  · exact h
  · split
    · rename_i keyname rest hmatch
      split
      · exact h
      · rename_i hguard
        have hne : k ≠ keyname := by
          intro he
          subst he
          rw [h] at hguard
          simp at hguard
        split
        · rename_i sname srawdir hsplit
          simpa [lookup_dictInsert_ne _ _ _ _ hne] using h
        · simpa [lookup_dictInsert_ne _ _ _ _ hne] using h
    · split
      · exact h
      · exact h

theorem parseLines_preserve_num_map (home : String) (lines : List String)
    (st : JumplistIndex) (k v : String) (h : st.num_map.lookup k = some v) :
    ((lines.foldl (parseLine home) st).num_map.lookup k = some v) := by
  induction lines generalizing st with
  | nil => exact h
  | cons l t ih => exact ih _ (parseLine_preserves_num_map home st l k v h)

theorem duplicate_key_line_dropped (home : String) (pre post : List String)
    (line k rest : String)
    (hmatch : keyMatch (pyStrip line) = some (k, rest))
    (hdup : (((parseFile home pre).num_map.lookup k).isSome : Bool) = true) :
    parseFile home (pre ++ line :: post) = parseFile home (pre ++ post)
    ∧ (parseFile home (pre ++ line :: post)).num_map.lookup k
        = (parseFile home pre).num_map.lookup k := by
  have heq : parseFile home (pre ++ line :: post) = parseFile home (pre ++ post) := by
    unfold parseFile
    rw [List.foldl_append, List.foldl_append, List.foldl_cons]
    rw [show parseLine home (List.foldl (parseLine home) JumplistIndex.empty pre) line
        = List.foldl (parseLine home) JumplistIndex.empty pre from
      parseLine_dup home _ line k rest hmatch hdup]
  refine ⟨heq, ?_⟩
  obtain ⟨v, hv⟩ := Option.isSome_iff_exists.mp hdup
  rw [heq, hv]
  unfold parseFile
  rw [List.foldl_append]
  exact parseLines_preserve_num_map home post _ k v hv

theorem duplicate_key_line_dropped_witness :
    parseFile "/h" (["x:one"] ++ "x:two" :: [])
      = parseFile "/h" (["x:one"] ++ [])
    ∧ (parseFile "/h" (["x:one"] ++ "x:two" :: [])).num_map.lookup "x"
      = (parseFile "/h" ["x:one"]).num_map.lookup "x" :=
  duplicate_key_line_dropped "/h" ["x:one"] [] "x:two" "x" "two" rfl rfl



theorem string_append_mk (a b : String) : a ++ b = String.mk (a.data ++ b.data) := rfl

theorem expanduser_tilde_slash (home session : String) :
    expanduser home ("~/" ++ session) = home ++ "/" ++ session := by
  unfold expanduser
  rw [show ("~/" ++ session).data = '~' :: '/' :: session.data from by
    rw [String.data_append]; rfl]
  show home ++ String.mk ('/' :: session.data) = home ++ "/" ++ session
  rw [string_append_mk home (String.mk ('/' :: session.data)),
    string_append_mk (home ++ "/") session, String.data_append]
  refine congrArg String.mk ?_
  rw [List.append_assoc]
  rfl

theorem isAbsolute_append (s t : String) (h : isAbsolute s = true) :
    isAbsolute (s ++ t) = true := by
  unfold isAbsolute at h ⊢
  rw [String.data_append]
  cases hs : s.data with
  | nil => rw [hs] at h; simp at h
  | cons c cs =>
    rw [hs] at h
    simpa using h

/-- C4 counterexample -/
theorem relative_directory_not_absolute :
    getSessionAndDir "/home/u" (fun _ => false) "s"
        (parseFile "/home/u" ["s:n:rel"])
      = Except.ok ("n", "rel")
    ∧ isAbsolute "rel" = false
    ∧ isAbsolute "/home/u" = true :=
  ⟨rfl, rfl, rfl⟩

/-- C4 amended -/
theorem directory_resolution_amended (home : String) (isdir : String → Bool)
    (dirs : List (String × String)) (session : String)
    (habs : isAbsolute home = true) :
    (∀ d, dirs.lookup session = some d →
      resolveDir home isdir dirs session = d)
    ∧ (dirs.lookup session = none →
        isAbsolute (resolveDir home isdir dirs session) = true)
    ∧ (dirs.lookup session = none →
        isdir (expanduser home ("~/" ++ session)) = false →
        resolveDir home isdir dirs session = home) := by
  refine ⟨?_, ?_, ?_⟩
  · intro d h
    unfold resolveDir
    rw [h]
  · intro h
    unfold resolveDir
    rw [h]
    by_cases hd : isdir (expanduser home ("~/" ++ session)) = true
    · rw [if_pos hd, expanduser_tilde_slash]
      exact isAbsolute_append (home ++ "/") session
        (isAbsolute_append home "/" habs)
    · rw [if_neg hd]
      exact habs
  · intro h hd
    unfold resolveDir
    rw [h, if_neg (by rw [hd]; exact Bool.false_ne_true)]
    rfl

theorem directory_resolution_amended_witness :
    resolveDir "/home/u" (fun _ => false) [("n", "rel")] "n" = "rel"
    ∧ isAbsolute (resolveDir "/home/u" (fun _ => true) [] "m") = true
    ∧ resolveDir "/home/u" (fun _ => false) [] "m" = "/home/u" :=
  ⟨(directory_resolution_amended "/home/u" (fun _ => false) [("n", "rel")] "n" rfl).1
      "rel" rfl,
   (directory_resolution_amended "/home/u" (fun _ => true) [] "m" rfl).2.1 rfl,
   (directory_resolution_amended "/home/u" (fun _ => false) [] "m" rfl).2.2 rfl rfl⟩



theorem isSome_dictInsert_cases (k v k' : String) (d : List (String × String))
    (h : ((dictInsert k v d).lookup k').isSome = true) :
    k' = k ∨ (d.lookup k').isSome = true := by
  obtain ⟨w, hw⟩ := Option.isSome_iff_exists.mp h
  rcases lookup_dictInsert_cases k v k' w d hw with ⟨hk, _⟩ | hd
  · exact Or.inl hk
  · exact Or.inr (by rw [hd]; rfl)

theorem parseLine_invariant (home : String) (st : JumplistIndex) (line : String)
    (h1 : ∀ name, (st.dirs.lookup name).isSome = true → name ∈ st.sessions)
    (h2 : ∀ k n, st.num_map.lookup k = some n → n ∈ st.sessions) :
    (∀ name, ((parseLine home st line).dirs.lookup name).isSome = true →
      name ∈ (parseLine home st line).sessions)
    ∧ (∀ k n, (parseLine home st line).num_map.lookup k = some n →
        n ∈ (parseLine home st line).sessions) := by
  unfold parseLine
  dsimp only
  split
  · exact ⟨h1, h2⟩
  · split
    · rename_i keyname rest hmatch
      split
      · exact ⟨h1, h2⟩
      · split
        · rename_i sname srawdir hsplit
          constructor
          · intro name hname
            rcases isSome_dictInsert_cases _ _ _ _ hname with hk | hold
            · subst hk
              simp
            · exact List.mem_append_left _ (h1 name hold)
          · intro k n hkn
            rcases lookup_dictInsert_cases _ _ _ _ _ hkn with ⟨_, hn⟩ | hold
            · subst hn
              simp
            · exact List.mem_append_left _ (h2 k n hold)
        · constructor
          · intro name hname
            exact List.mem_append_left _ (h1 name hname)
          · intro k n hkn
            rcases lookup_dictInsert_cases _ _ _ _ _ hkn with ⟨_, hn⟩ | hold
            · subst hn
              simp
            · exact List.mem_append_left _ (h2 k n hold)
    · split
      · rename_i sname srawdir hsplit
        constructor
        · intro name hname
          rcases isSome_dictInsert_cases _ _ _ _ hname with hk | hold
          · subst hk
            simp
          · exact List.mem_append_left _ (h1 name hold)
        · intro k n hkn
          exact List.mem_append_left _ (h2 k n hkn)
      · constructor
        · intro name hname
          exact List.mem_append_left _ (h1 name hname)
        · intro k n hkn
          exact List.mem_append_left _ (h2 k n hkn)

theorem parseLines_invariant (home : String) (lines : List String)
    (st : JumplistIndex)
    (h1 : ∀ name, (st.dirs.lookup name).isSome = true → name ∈ st.sessions)
    (h2 : ∀ k n, st.num_map.lookup k = some n → n ∈ st.sessions) :
    (∀ name, (((lines.foldl (parseLine home) st).dirs.lookup name).isSome = true) →
      name ∈ (lines.foldl (parseLine home) st).sessions)
    ∧ (∀ k n, (lines.foldl (parseLine home) st).num_map.lookup k = some n →
        n ∈ (lines.foldl (parseLine home) st).sessions) := by
  induction lines generalizing st with
  | nil => exact ⟨h1, h2⟩
  | cons l t ih =>
    have hstep := parseLine_invariant home st l h1 h2
    exact ih (parseLine home st l) hstep.1 hstep.2

theorem parseLine_registers_one (home : String) (st : JumplistIndex)
    (line : String) (hb : blankOrComment line = false)
    (hd : dupKeyLine st line = false) :
    (parseLine home st line).sessions.length = st.sessions.length + 1 := by
  unfold parseLine
  dsimp only
  rw [if_neg (by
    unfold blankOrComment at hb
    rw [hb]
    exact Bool.false_ne_true)]
  unfold dupKeyLine at hd
  cases hk : keyMatch (pyStrip line) with
  | none =>
    dsimp only
    split <;> simp
  | some pr =>
    obtain ⟨k, rest⟩ := pr
    rw [hk] at hd
    dsimp only at hd
    dsimp only
    rw [if_neg (by rw [hd]; exact Bool.false_ne_true)]
    split <;> simp

theorem parseLine_skips (home : String) (st : JumplistIndex) (line : String)
    (h : blankOrComment line = true ∨ dupKeyLine st line = true) :
    parseLine home st line = st := by
  unfold parseLine
  dsimp only
  rcases h with hb | hd
  · unfold blankOrComment at hb
    rw [if_pos hb]
  · unfold dupKeyLine at hd
    by_cases hb2 : ((pyStrip line).data.isEmpty
        || (pyStrip line).data.head? == some '#') = true
    · rw [if_pos hb2]
    · rw [if_neg hb2]
      cases hk : keyMatch (pyStrip line) with
      | none =>
        rw [hk] at hd
        dsimp only at hd
        exact absurd hd Bool.false_ne_true
      | some pr =>
        obtain ⟨k, rest⟩ := pr
        rw [hk] at hd
        dsimp only at hd
        dsimp only
        rw [if_pos hd]

/-- C10 -/
theorem parser_closure_invariant (home : String) (lines : List String) :
    (∀ name, ((parseFile home lines).dirs.lookup name).isSome = true →
      name ∈ (parseFile home lines).sessions)
    ∧ (∀ k n, (parseFile home lines).num_map.lookup k = some n →
        n ∈ (parseFile home lines).sessions)
    ∧ (∀ st line, blankOrComment line = false → dupKeyLine st line = false →
        (parseLine home st line).sessions.length = st.sessions.length + 1)
    ∧ (∀ st line, blankOrComment line = true ∨ dupKeyLine st line = true →
        parseLine home st line = st) := by
  have hinv := parseLines_invariant home lines JumplistIndex.empty
    (by intro name h; simp [JumplistIndex.empty, List.lookup] at h)
    (by intro k n h; simp [JumplistIndex.empty, List.lookup] at h)
  exact ⟨hinv.1, hinv.2,
    fun st line hb hd => parseLine_registers_one home st line hb hd,
    fun st line h => parseLine_skips home st line h⟩

/-- C10 witness -/
theorem parser_closure_invariant_witness :
    ("n" ∈ (parseFile "/h" ["k:n:~/d"]).sessions)
    ∧ ("n" ∈ (parseFile "/h" ["k:n:~/d"]).sessions)
    ∧ (parseLine "/h" JumplistIndex.empty "dev").sessions.length
        = (JumplistIndex.empty : JumplistIndex).sessions.length + 1
    ∧ parseLine "/h" JumplistIndex.empty "# comment" = JumplistIndex.empty :=
  ⟨(parser_closure_invariant "/h" ["k:n:~/d"]).1 "n" rfl,
   (parser_closure_invariant "/h" ["k:n:~/d"]).2.1 "k" "n" rfl,
   (parser_closure_invariant "/h" []).2.2.1 JumplistIndex.empty "dev" rfl rfl,
   (parser_closure_invariant "/h" []).2.2.2 JumplistIndex.empty "# comment"
     (Or.inl rfl)⟩


end Tmuxjump
